import Mathlib

set_option linter.unusedVariables false

/-!
Verification development for the agent/doctrine simulation (`npc.py`,
`doctrines.py`, `99.py`).

Conventions of the shallow embedding:
* Python floats are modelled as exact rationals (`ℚ`); every decimal literal
  of the source is the corresponding rational.
* `random.random()` draws are modelled by an explicit stream of rationals
  (`RandS`) threaded through every function that draws; `random.uniform a b`
  is `a + (b - a) * r` for the next draw `r`, exactly as CPython computes it.
* String tags of the source (`state`, `zone`, `target`, doctrine and
  archetype names, history event names) are closed inductive types; the
  source only ever compares them against the corresponding literals.
* `math.hypot(dx,dy) < 3` is translated to the equivalent exact test
  `dx*dx + dy*dy < 9`.  The position update of a non-arrived travelling step
  divides by the (generally irrational) distance; `ratSqrt` below is exact
  whenever the squared distance is the square of a rational (all concrete
  inputs used in this file are of that form) and no theorem below depends on
  positions produced through an inexact square root.
* `deque(maxlen = n)` is `appendCap n`: append, evicting oldest beyond `n`.
* Integer fields that the source only ever decrements under a positivity
  guard (`deradicalization_timer`) are `ℕ`; `work_budget`/`travel_budget`,
  which may go negative, are `ℤ`.  `int(x)` is `pyInt` (truncation).
-/

/-- Stream of `random.random()` results. -/
abbrev RandS := List ℚ

/-- Pop the next `random.random()` value (default `1` on an exhausted stream;
theorems always supply enough draws). -/
def drawRand : RandS → ℚ × RandS
  | [] => (1, [])
  | r :: rs => (r, rs)

/-- `random.uniform a b = a + (b - a) * random.random()` (CPython). -/
def uniformRand (a b : ℚ) (rs : RandS) : ℚ × RandS :=
  let d := drawRand rs
  (a + (b - a) * d.1, d.2)

/-- `deque(maxlen := cap)` append: keep the newest `cap` entries. -/
def appendCap {α : Type} (cap : ℕ) (xs : List α) (x : α) : List α :=
  let ys := xs ++ [x]
  ys.drop (ys.length - cap)

/-- Python `int()` on a rational: truncation toward zero. -/
def pyInt (q : ℚ) : ℤ := if 0 ≤ q then Rat.floor q else -Rat.floor (-q)

/-- Greatest `k ≤ bound` with `k * k ≤ n` (structural integer sqrt search). -/
def isqrtAux (n : ℕ) : ℕ → ℕ
  | 0 => 0
  | k + 1 => if (k + 1) * (k + 1) ≤ n then k + 1 else isqrtAux n k

/-- Integer square root used by `ratSqrt`. -/
def isqrt (n : ℕ) : ℕ := isqrtAux n n

/-- Rational stand-in for `math.sqrt`: exact on squares of rationals
(`ratSqrt ((m/n)^2) = m/n`); otherwise a rational approximation.  See the
header note: only exact uses occur in the theorems below. -/
def ratSqrt (q : ℚ) : ℚ := ((isqrt (q.num.toNat * q.den) : ℚ)) / (q.den : ℚ)

/-- The five doctrine types (`DoctrineType`, identical tag sets in `npc.py`
and `doctrines.py`). -/
inductive Dt
  | MERITOCRATIC
  | TRANSCENDENT
  | CONSPIRATORIAL
  | REVOLUTIONARY
  | LIBERTARIAN_CULT
deriving DecidableEq

/-- The five archetypes (`NPCArchetype`). -/
inductive Arch
  | PRAGMATIST
  | IDEALIST
  | ANXIOUS
  | OUTSIDER
  | HEDONIST
deriving DecidableEq

/-- The five work zones. -/
inductive Zone
  | SCIENCE
  | TRADE
  | DEVELOPMENT
  | FLEX
  | PANTHEON
deriving DecidableEq

/-- A movement target: `"HOME"` or a zone name. -/
inductive Tgt
  | HOME
  | Z (z : Zone)
deriving DecidableEq

/-- `state` field values of the NPC state machine. -/
inductive NState
  | AT_HOME
  | TRAVELING
  | AT_WORK
deriving DecidableEq

/-- `cycle_phase` labels (written, never branched on). -/
inductive Phase
  | RESTING
  | COMMUTING
  | WORKING
  | RETURNING
deriving DecidableEq

/-- `pantheon_doctrine_type` labels from `perform_work` (written, never read). -/
inductive PdType
  | TRANSCENDENCE
  | MERITOCRACY
  | COHERENCE
deriving DecidableEq

/-- `doctrine_history` event tags. -/
inductive HistTag
  | EXPOSED
  | ESCAPE_BEGUN
  | RECOVERED
  | DOCTRINE_COLLAPSE
deriving DecidableEq

/-- One `doctrine_history` entry `(tick, doctrine-or-"NONE", tag)`. -/
abbrev HistEntry := ℕ × Option Dt × HistTag

/-- `trust_log` entry heads (`e[0]`), the only part the code reads. -/
inductive TrustTag
  | HONOR
  | BREAK
  | OTHER
deriving DecidableEq

namespace Npc

/-- `npc.py` `DoctrineProfile`. -/
structure DoctrineProfile where
  doctrine_type : Dt
  strength : ℚ
  time_indoctrinated : ℕ
  guru_id : Option ℤ
deriving DecidableEq

/-- `DoctrineProfile.update` (npc.py): age by one tick, strength `+0.02`
capped at `1`. -/
def DoctrineProfile.update (p : DoctrineProfile) : DoctrineProfile :=
  { p with
    time_indoctrinated := p.time_indoctrinated + 1
    strength := min 1 (p.strength + 0.02) }

/-- The `NPC` dataclass (npc.py).  `commitments` and `decision_history` are
omitted: no operation modelled here reads or writes them. -/
structure NPC where
  x : ℚ
  y : ℚ
  zone : Option Zone
  state : NState
  target : Option Tgt
  speed : ℚ
  id : ℤ
  money : ℚ
  energy : ℚ
  coherence : ℚ
  self_esteem : ℚ
  stress_endured : ℚ
  skills : List (Zone × ℚ)
  trust_log : List TrustTag
  pantheon_visit_count : ℕ
  pantheon_doctrine_bias : ℚ
  pantheon_doctrine_type : Option PdType
  is_guru : Bool
  travel_budget : ℤ
  work_budget : ℤ
  shift_offset : ℕ
  cycle_phase : Phase
  is_collapsing : Bool
  trustworthiness : ℚ
  trade_dissonance : ℚ
  archetype : Arch
  doctrine_profile : Option DoctrineProfile
  doctrine_history : List HistEntry
  deradicalization_timer : ℕ
  injustice_accumulated : ℚ
  collapse_cycle_count : ℕ
  has_witnessed_system_failure : Bool
deriving DecidableEq

/-- Config data consumed by the state machine (`config` dict of `99.py`):
`coherence.inertia`, `shift.duration`, `shift.travel_ratio`, and the
per-target travel cost table (`energy_cost_per_tick`, `money_cost_per_tick`;
`none` models a target absent from the dict, e.g. `"HOME"`). -/
structure Config where
  inertia : ℚ
  shift_duration : ℕ
  travel_ratio_val : ℚ
  zone_travel_costs : Tgt → Option (ℚ × ℚ)

/-- The anchor-coordinate dict: target name to world coordinates. -/
abbrev Anchors := Tgt → Option (ℚ × ℚ)

/-- `next(itertools.count(1))` on a freshly built counter: its first (and
only consumed) element, namely `start`.  The dataclass default factory
`lambda: next(itertools.count(1))` rebuilds the counter on every call, so
every defaulted id equals `itertools_count_first 1 = 1`. -/
def itertools_count_first (start : ℤ) : ℤ := start

/-- The defaulted `NPC.id` value. -/
def npcIdDefault : ℤ := itertools_count_first 1

/-- Dataclass construction `NPC(x=…, y=…, money=…, energy=…, coherence=…,
stress_endured=…)` as performed by `World.__init__`, including the dataclass
field defaults and `__post_init__` (which unconditionally assigns the
PRAGMATIST archetype; the five-element archetype list it builds is never
sampled). -/
def mkNPC (x y money energy coherence stress_endured : ℚ) : NPC :=
  { x := x
    y := y
    zone := none
    state := NState.AT_HOME
    target := none
    speed := 4
    id := npcIdDefault
    money := money
    energy := energy
    coherence := coherence
    self_esteem := 0.7
    stress_endured := stress_endured
    skills := []
    trust_log := []
    pantheon_visit_count := 0
    pantheon_doctrine_bias := 0
    pantheon_doctrine_type := none
    is_guru := false
    travel_budget := 0
    work_budget := 0
    shift_offset := 0
    cycle_phase := Phase.RESTING
    is_collapsing := false
    trustworthiness := 0.5
    trade_dissonance := 0
    archetype := Arch.PRAGMATIST
    doctrine_profile := none
    doctrine_history := []
    deradicalization_timer := 0
    injustice_accumulated := 0
    collapse_cycle_count := 0
    has_witnessed_system_failure := false }

/-- `World.__init__` NPC creation loop (99.py): `n` agents at the HOME
anchor with `money ~ U(100,250)`, `energy ~ U(70,100)`,
`coherence ~ U(0.5,0.9)`, `stress_endured ~ U(10,50)`. -/
def initNpcs (homeX homeY : ℚ) : ℕ → RandS → List NPC × RandS
  | 0, rs => ([], rs)
  | n + 1, rs =>
    let m := uniformRand 100 250 rs
    let e := uniformRand 70 100 m.2
    let c := uniformRand 0.5 0.9 e.2
    let s := uniformRand 10 50 c.2
    let npc := mkNPC homeX homeY m.1 e.1 c.1 s.1
    let rest := initNpcs homeX homeY n s.2
    (npc :: rest.1, rest.2)

/-- `NPC.compute_trustworthiness`. -/
def compute_trustworthiness (a : NPC) : NPC :=
  let honors : ℚ := ((a.trust_log.filter (fun e => e = TrustTag.HONOR)).length : ℚ)
  let breaks : ℚ := ((a.trust_log.filter (fun e => e = TrustTag.BREAK)).length : ℚ)
  let contract_score := (honors + 1) / (honors + breaks + 2)
  let stress := min 1 (a.stress_endured / 100)
  let resilience := max 0 (1 - stress)
  let tw := (0.6 * contract_score + 0.4 * resilience) * (a.coherence * a.coherence)
  { a with trustworthiness := max 0 (min 1 tw) }

/-- `NPC.move_toward_target`: returns the updated agent and the `reached`
flag.  Arrival test `math.hypot(dx,dy) < 3` is the exact `dx²+dy² < 9`. -/
def move_toward_target (a : NPC) (anchors : Anchors) (cfg : Config) : NPC × Bool :=
  match a.target with
  | none => (a, false)
  | some tgt =>
    match anchors tgt with
    | none => (a, false)
    | some (tx, ty) =>
      let dx := tx - a.x
      let dy := ty - a.y
      let distSq := dx * dx + dy * dy
      if distSq < 9 then
        ({ a with x := tx, y := ty }, true)
      else
        let distance := ratSqrt distSq
        let b := { a with
          x := a.x + dx / distance * a.speed
          y := a.y + dy / distance * a.speed }
        let b :=
          match cfg.zone_travel_costs tgt with
          | some (ec, mc) => { b with energy := b.energy - ec, money := b.money - mc }
          | none => b
        (b, false)

/-- The SCIENCE arm of `perform_work`. -/
def work_science (a : NPC) (efficiency : ℚ) : NPC :=
  { a with
    self_esteem := min 1 (a.self_esteem + 0.05)
    money := a.money - 1 * (1.5 - efficiency)
    stress_endured := a.stress_endured * 0.95 }

/-- The TRADE arm of `perform_work`. -/
def work_trade (a : NPC) (efficiency : ℚ) : NPC :=
  let b := { a with
    money := a.money + 15 * efficiency
    stress_endured := a.stress_endured + 4 }
  if 15 * efficiency < 12 then
    { b with trade_dissonance := b.trade_dissonance + (12 - 15 * efficiency) * 0.2 }
  else b

/-- The DEVELOPMENT arm of `perform_work`. -/
def work_development (a : NPC) (efficiency : ℚ) : NPC :=
  { a with
    energy := min 100 (a.energy + 15 * efficiency)
    self_esteem := a.self_esteem - 0.07 }

/-- The FLEX arm of `perform_work`. -/
def work_flex (a : NPC) (efficiency : ℚ) : NPC :=
  { a with
    stress_endured := a.stress_endured - 12 * efficiency
    energy := a.energy - 10 }

/-- The PANTHEON arm of `perform_work` (first-visit doctrine label, bias
growth, tenth-visit irreversible guru promotion, and the guru-dependent
energy effect). -/
def work_pantheon (a : NPC) : NPC :=
  let b := { a with
    self_esteem := min 1 (a.self_esteem + 0.12)
    stress_endured := max 0 (a.stress_endured * 0.5)
    coherence := a.coherence + 0.06
    pantheon_visit_count := a.pantheon_visit_count + 1 }
  let b :=
    if b.pantheon_visit_count = 1 then
      if b.stress_endured > 60 then
        { b with pantheon_doctrine_type := some PdType.TRANSCENDENCE }
      else if b.money < 20 then
        { b with pantheon_doctrine_type := some PdType.MERITOCRACY }
      else
        { b with pantheon_doctrine_type := some PdType.COHERENCE }
    else b
  let b := { b with pantheon_doctrine_bias := min 1 (b.pantheon_doctrine_bias + 0.03) }
  let b :=
    if b.is_guru = false ∧ 10 ≤ b.pantheon_visit_count then
      { b with is_guru := true }
    else b
  if b.is_guru = false then { b with energy := b.energy - 8 }
  else { b with energy := min 100 (b.energy + 0.5) }

/-- The skill-gain step of `perform_work`
(`if self.zone in self.skills: self.skills[self.zone] += 0.01*efficiency`). -/
def skill_gain (a : NPC) (z : Zone) (efficiency : ℚ) : NPC :=
  match a.skills.lookup z with
  | some v => { a with skills := a.skills.replace (z, v) (z, v + 0.01 * efficiency) }
  | none => a

/-- The final money/energy/stress clamps of `perform_work` (note:
`coherence` is not clamped here). -/
def clamp_work_resources (a : NPC) : NPC :=
  { a with
    money := max 0 a.money
    energy := max 0 (min 100 a.energy)
    stress_endured := max 0 (min 100 a.stress_endured) }

/-- `NPC.perform_work`: one zone-specific economic effect, skill gain, and
the final resource clamps. -/
def perform_work (a : NPC) (cfg : Config) : NPC :=
  if a.state = NState.AT_WORK ∧ a.zone ≠ none then
    let load := a.stress_endured / 100 + (1 - a.energy / 100)
    let efficiency := max 0.1 (min 1 (a.self_esteem - load * 0.3))
    let b :=
      match a.zone with
      | some Zone.SCIENCE => work_science a efficiency
      | some Zone.TRADE => work_trade a efficiency
      | some Zone.DEVELOPMENT => work_development a efficiency
      | some Zone.FLEX => work_flex a efficiency
      | some Zone.PANTHEON => work_pantheon a
      | none => a
    let b :=
      match a.zone with
      | some z => skill_gain b z efficiency
      | none => b
    clamp_work_resources b
  else a

/-- npc.py archetype-vulnerability dict: partial rows, `.get` default `0.5`. -/
def npcVulnerability : Arch → Dt → ℚ
  | Arch.PRAGMATIST, Dt.MERITOCRATIC => 0.8
  | Arch.PRAGMATIST, Dt.LIBERTARIAN_CULT => 0.7
  | Arch.IDEALIST, Dt.TRANSCENDENT => 0.9
  | Arch.IDEALIST, Dt.REVOLUTIONARY => 0.85
  | Arch.ANXIOUS, Dt.CONSPIRATORIAL => 0.95
  | Arch.ANXIOUS, Dt.TRANSCENDENT => 0.85
  | Arch.OUTSIDER, Dt.REVOLUTIONARY => 0.95
  | Arch.OUTSIDER, Dt.CONSPIRATORIAL => 0.85
  | Arch.HEDONIST, Dt.LIBERTARIAN_CULT => 0.8
  | Arch.HEDONIST, Dt.MERITOCRATIC => 0.7
  | _, _ => 0.5

/-- The susceptibility score of `NPC.expose_to_doctrine`:
`base_vuln*0.6 + min(1,stress/80)*0.2 + ((1-coherence)*0.5)*0.2`. -/
def susceptibility (a : NPC) (d : Dt) : ℚ :=
  npcVulnerability a.archetype d * 0.6
    + min 1 (a.stress_endured / 80) * 0.2
    + (1 - a.coherence) * 0.5 * 0.2

/-- The fresh-indoctrination attempt of `NPC.expose_to_doctrine` (the code
below its same-doctrine early return). -/
def expose_attempt (a : NPC) (d : Dt) (guru : Option ℤ) (tick : ℕ) (rs : RandS) :
    Bool × NPC × RandS :=
  let dr := drawRand rs
  if susceptibility a d > dr.1 then
    (true,
      { a with
        doctrine_profile := some ⟨d, 0.1, 0, guru⟩
        doctrine_history := appendCap 50 a.doctrine_history (tick, some d, HistTag.EXPOSED) },
      dr.2)
  else (false, a, dr.2)

/-- `NPC.expose_to_doctrine`.  Note: the only early return is the
same-doctrine branch; holding a *different* doctrine falls through to the
fresh-indoctrination attempt (npc.py has no conflict machinery). -/
def expose_to_doctrine (a : NPC) (d : Dt) (guru : Option ℤ) (tick : ℕ) (rs : RandS) :
    Bool × NPC × RandS :=
  match a.doctrine_profile with
  | some p =>
    if p.doctrine_type = d then
      (false, { a with doctrine_profile := some { p with strength := p.strength + 0.01 } }, rs)
    else expose_attempt a d guru tick rs
  | none => expose_attempt a d guru tick rs

/-- `NPC._apply_doctrine_effects`. -/
def apply_doctrine_effects (a : NPC) : NPC :=
  match a.doctrine_profile with
  | none => a
  | some p =>
    match p.doctrine_type with
    | Dt.MERITOCRATIC =>
      if a.money < 30 then
        { a with
          self_esteem := a.self_esteem - 0.03
          stress_endured := a.stress_endured + 2 }
      else { a with self_esteem := min 1 (a.self_esteem + 0.02) }
    | Dt.TRANSCENDENT =>
      { a with
        stress_endured := a.stress_endured * 0.9
        coherence := min 1 (a.coherence + 0.05)
        self_esteem := min 1 (a.self_esteem + 0.02) }
    | Dt.CONSPIRATORIAL =>
      { a with
        stress_endured := min 100 (a.stress_endured + 1)
        self_esteem := min 1 (a.self_esteem + 0.01) }
    | Dt.REVOLUTIONARY =>
      { a with
        stress_endured := min 100 (a.stress_endured + 0.5)
        self_esteem := min 1 (a.self_esteem + 0.03)
        coherence := max 0 (a.coherence - 0.02) }
    | Dt.LIBERTARIAN_CULT =>
      let b :=
        if a.money > 150 then { a with self_esteem := min 1 (a.self_esteem + 0.04) }
        else a
      { b with stress_endured := min 100 (b.stress_endured + 0.5) }

/-- `NPC._check_escape_conditions` (the CONSPIRATORIAL arm only draws when
`has_witnessed_system_failure` holds: Python `and` short-circuits). -/
def check_escape_conditions (a : NPC) (rs : RandS) : Bool × RandS :=
  match a.doctrine_profile with
  | none => (false, rs)
  | some p =>
    match p.doctrine_type with
    | Dt.MERITOCRATIC => (decide (a.stress_endured > 75 ∧ a.money < 20), rs)
    | Dt.TRANSCENDENT => (decide (a.collapse_cycle_count > 3 ∧ a.coherence < 0.4), rs)
    | Dt.CONSPIRATORIAL =>
      if a.has_witnessed_system_failure then
        let dr := drawRand rs
        (decide (dr.1 < 0.02), dr.2)
      else (false, rs)
    | Dt.REVOLUTIONARY => (decide (a.stress_endured < 40 ∧ a.money > 100), rs)
    | Dt.LIBERTARIAN_CULT => (decide (a.stress_endured > 70 ∧ a.coherence < 0.45), rs)

/-- npc.py `recovery_times` dict (all five doctrines present; the `.get`
default `200` is unreachable for these keys). -/
def recovery_times : Dt → ℕ
  | Dt.MERITOCRATIC => 200
  | Dt.TRANSCENDENT => 400
  | Dt.CONSPIRATORIAL => 250
  | Dt.REVOLUTIONARY => 180
  | Dt.LIBERTARIAN_CULT => 220

/-- `NPC.begin_deradicalization`. -/
def begin_deradicalization (a : NPC) (d : Dt) (tick : ℕ) : NPC :=
  { a with
    deradicalization_timer := recovery_times d
    doctrine_history := appendCap 50 a.doctrine_history (tick, some d, HistTag.ESCAPE_BEGUN) }

/-- `NPC.update_deradicalization`: clears the profile (logging RECOVERED)
when called with an expired timer, otherwise decrements and trickles
coherence. -/
def update_deradicalization (a : NPC) (tick : ℕ) : NPC :=
  if a.deradicalization_timer ≤ 0 then
    { a with
      doctrine_profile := none
      doctrine_history := appendCap 50 a.doctrine_history (tick, none, HistTag.RECOVERED) }
  else
    { a with
      deradicalization_timer := a.deradicalization_timer - 1
      coherence := min 1 (a.coherence + 0.005) }

/-- `NPC.deepen_indoctrination`. -/
def deepen_indoctrination (a : NPC) (tick : ℕ) (rs : RandS) : NPC × RandS :=
  match a.doctrine_profile with
  | none => (a, rs)
  | some p =>
    let esc := check_escape_conditions a rs
    if esc.1 then (begin_deradicalization a p.doctrine_type tick, esc.2)
    else
      let b := { a with doctrine_profile := some p.update }
      (apply_doctrine_effects b, esc.2)

/-- npc.py `overrides` dict of `get_doctrine_override` (all five doctrines
present; the `doc not in overrides` branch is unreachable for them). -/
def overridesTable : Dt → Zone × ℚ
  | Dt.MERITOCRATIC => (Zone.TRADE, 0.8)
  | Dt.TRANSCENDENT => (Zone.PANTHEON, 0.95)
  | Dt.CONSPIRATORIAL => (Zone.PANTHEON, 0.85)
  | Dt.REVOLUTIONARY => (Zone.PANTHEON, 0.9)
  | Dt.LIBERTARIAN_CULT => (Zone.TRADE, 0.75)

/-- `NPC.get_doctrine_override`: the draw is tested against the raw
`override_frequency` of the held doctrine (not scaled by strength). -/
def get_doctrine_override (a : NPC) (rs : RandS) : Option Zone × RandS :=
  match a.doctrine_profile with
  | none => (none, rs)
  | some p =>
    let fz := overridesTable p.doctrine_type
    let dr := drawRand rs
    if dr.1 > fz.2 then (none, dr.2)
    else
      match p.doctrine_type with
      | Dt.MERITOCRATIC =>
        (if a.money < 50 then some Zone.TRADE else none, dr.2)
      | Dt.REVOLUTIONARY =>
        let dr2 := drawRand dr.2
        (if dr2.1 < 0.3 then some Zone.DEVELOPMENT else some Zone.PANTHEON, dr2.2)
      | _ => (some fz.1, dr.2)

/-- First-maximum selection of Python `max(scores, key=scores.get)` over the
insertion-ordered score list (a later entry replaces only when strictly
greater). -/
def argmaxGo (z : Zone) (v : ℚ) : List (Zone × ℚ) → Zone
  | [] => z
  | (z2, v2) :: rest => if v2 > v then argmaxGo z2 v2 rest else argmaxGo z v rest

/-- `max(scores, key=scores.get) if scores else "HOME"`. -/
def argmaxFirst : List (Zone × ℚ) → Tgt
  | [] => Tgt.HOME
  | (z, v) :: rest => Tgt.Z (argmaxGo z v rest)

/-- The per-zone jitter loop: `scores[z] += random.uniform(0, hi)` in
insertion order. -/
def addJitter (hi : ℚ) : List (Zone × ℚ) → RandS → List (Zone × ℚ) × RandS
  | [], rs => ([], rs)
  | (z, v) :: rest, rs =>
    let u := uniformRand 0 hi rs
    let tl := addJitter hi rest u.2
    ((z, v + u.1) :: tl.1, tl.2)

/-- `NPC.decide_work_zone` (the `anchors`/`tick` parameters of the source
are unused by its body). -/
def decide_work_zone (a : NPC) (rs : RandS) : Tgt × RandS :=
  let forced := get_doctrine_override a rs
  match forced.1 with
  | some z => (Tgt.Z z, forced.2)
  | none =>
    let rs := forced.2
    if a.energy < 15 then (Tgt.HOME, rs)
    else
      let base : List (Zone × ℚ) :=
        (if a.self_esteem < 0.5 then
          [(Zone.PANTHEON, (0.5 - a.self_esteem) * 3.2 + (1 - a.coherence) * 2.1)]
        else [])
        ++ [(Zone.SCIENCE, (1 - a.coherence) * 1.6),
            (Zone.TRADE, max 0 ((50 - a.money) / 50) * 2.2),
            (Zone.DEVELOPMENT, (100 - a.energy) / 100 * 0.8),
            (Zone.FLEX, a.stress_endured / 100 * 1)]
      let scored := addJitter (0.5 * (1 - a.coherence)) base rs
      (argmaxFirst scored.1, scored.2)

/-- `NPC.on_collapse`. -/
def on_collapse (a : NPC) : NPC :=
  { a with collapse_cycle_count := a.collapse_cycle_count + 1 }

/-- The per-tick coherence decay of `update_state`:
`coherence = clamp01(coherence * inertia - stress * 0.001)`. -/
def coherence_decay (a : NPC) (cfg : Config) : NPC :=
  { a with coherence := max 0 (min 1 (a.coherence * cfg.inertia - a.stress_endured * 0.001)) }

/-- The one-shot collapse trigger of `update_state`. -/
def collapse_check (a : NPC) : NPC :=
  if a.coherence < 0.3 ∧ a.is_collapsing = false then
    on_collapse { a with is_collapsing := true }
  else a

/-- The HOME/TRAVELING/WORK phase machine of `update_state` (everything
after the decay and collapse check). -/
def phase_step (a : NPC) (anchors : Anchors) (cfg : Config) (tick : ℕ) (rs : RandS) :
    NPC × RandS :=
  match a.state with
  | NState.TRAVELING =>
    let mv := move_toward_target a anchors cfg
    if mv.2 then
      let b := mv.1
      let b :=
        match b.target with
        | some Tgt.HOME => { b with state := NState.AT_HOME, cycle_phase := Phase.RESTING }
        | some (Tgt.Z z) =>
          { b with state := NState.AT_WORK, zone := some z, cycle_phase := Phase.WORKING }
        | none => b
      ({ b with target := none }, rs)
    else (mv.1, rs)
  | NState.AT_HOME =>
    let b := { a with
      energy := min 100 (a.energy + 0.8)
      stress_endured := max 0 (a.stress_endured - 0.3) }
    let current_cycle := ((tick : ℤ) - (b.shift_offset : ℤ)) % ((cfg.shift_duration : ℤ) * 2)
    if current_cycle = 0 ∧ (b.shift_offset : ℤ) < (tick : ℤ) then
      let tb := pyInt ((cfg.shift_duration : ℚ) * cfg.travel_ratio_val)
      let b := { b with travel_budget := tb, work_budget := (cfg.shift_duration : ℤ) - tb }
      let dz := decide_work_zone b rs
      match dz.1 with
      | Tgt.HOME => (b, dz.2)
      | Tgt.Z z =>
        ({ b with target := some (Tgt.Z z), state := NState.TRAVELING, cycle_phase := Phase.COMMUTING },
          dz.2)
    else (b, rs)
  | NState.AT_WORK =>
    match a.zone with
    | none => (a, rs)
    | some _ =>
      let b := perform_work a cfg
      let b := { b with work_budget := b.work_budget - 1 }
      if b.work_budget ≤ 0 ∧ ¬(b.is_guru = true ∧ b.zone = some Zone.PANTHEON) then
        ({ b with
            target := some Tgt.HOME
            state := NState.TRAVELING
            cycle_phase := Phase.RETURNING
            zone := none },
          rs)
      else (b, rs)

/-- `NPC.update_state`: decay, collapse check, then the phase machine. -/
def update_state (a : NPC) (anchors : Anchors) (cfg : Config) (tick : ℕ) (rs : RandS) :
    NPC × RandS :=
  phase_step (collapse_check (coherence_decay a cfg)) anchors cfg tick rs

/-- `act` line `if self.doctrine_profile: self.deepen_indoctrination(tick)`. -/
def act_doctrine_stage (a : NPC) (tick : ℕ) (rs : RandS) : NPC × RandS :=
  if (a.doctrine_profile).isSome then deepen_indoctrination a tick rs else (a, rs)

/-- `act` line `if self.deradicalization_timer > 0: self.update_deradicalization(tick)`. -/
def act_derad_stage (a : NPC) (tick : ℕ) : NPC :=
  if a.deradicalization_timer > 0 then update_deradicalization a tick else a

/-- `act` line `if tick % 10 == 0: self.compute_trustworthiness()`. -/
def act_trust_stage (a : NPC) (tick : ℕ) : NPC :=
  if tick % 10 = 0 then compute_trustworthiness a else a

/-- `NPC.act`: state machine, then doctrine deepening (only while a profile
is held), then deradicalization (only while the timer is positive), then the
periodic trust recomputation. -/
def act (a : NPC) (anchors : Anchors) (cfg : Config) (tick : ℕ) (rs : RandS) : NPC × RandS :=
  let st := update_state a anchors cfg tick rs
  let dp := act_doctrine_stage st.1 tick st.2
  (act_trust_stage (act_derad_stage dp.1 tick) tick, dp.2)

end Npc

namespace Mix

/-- `doctrines.py` `DOCTRINE_COMPATIBILITY` matrix (complete on all 25
pairs, so the `.get` default `DEFAULT_DOCTRINE_TENSION = 0.02` is never
consulted for these keys). -/
def DOCTRINE_COMPATIBILITY : Dt → Dt → ℚ
  | Dt.MERITOCRATIC, Dt.MERITOCRATIC => 0
  | Dt.MERITOCRATIC, Dt.LIBERTARIAN_CULT => -0.015
  | Dt.MERITOCRATIC, Dt.TRANSCENDENT => 0.02
  | Dt.MERITOCRATIC, Dt.CONSPIRATORIAL => 0.04
  | Dt.MERITOCRATIC, Dt.REVOLUTIONARY => 0.09
  | Dt.LIBERTARIAN_CULT, Dt.MERITOCRATIC => -0.015
  | Dt.LIBERTARIAN_CULT, Dt.LIBERTARIAN_CULT => 0
  | Dt.LIBERTARIAN_CULT, Dt.TRANSCENDENT => 0.01
  | Dt.LIBERTARIAN_CULT, Dt.CONSPIRATORIAL => 0.03
  | Dt.LIBERTARIAN_CULT, Dt.REVOLUTIONARY => 0.07
  | Dt.TRANSCENDENT, Dt.TRANSCENDENT => 0
  | Dt.TRANSCENDENT, Dt.CONSPIRATORIAL => -0.01
  | Dt.TRANSCENDENT, Dt.MERITOCRATIC => 0.03
  | Dt.TRANSCENDENT, Dt.LIBERTARIAN_CULT => 0.02
  | Dt.TRANSCENDENT, Dt.REVOLUTIONARY => 0.05
  | Dt.CONSPIRATORIAL, Dt.CONSPIRATORIAL => 0
  | Dt.CONSPIRATORIAL, Dt.TRANSCENDENT => -0.01
  | Dt.CONSPIRATORIAL, Dt.REVOLUTIONARY => 0.04
  | Dt.CONSPIRATORIAL, Dt.MERITOCRATIC => 0.05
  | Dt.CONSPIRATORIAL, Dt.LIBERTARIAN_CULT => 0.03
  | Dt.REVOLUTIONARY, Dt.REVOLUTIONARY => 0
  | Dt.REVOLUTIONARY, Dt.CONSPIRATORIAL => 0.04
  | Dt.REVOLUTIONARY, Dt.TRANSCENDENT => 0.05
  | Dt.REVOLUTIONARY, Dt.MERITOCRATIC => 0.10
  | Dt.REVOLUTIONARY, Dt.LIBERTARIAN_CULT => 0.08

/-- `get_doctrine_tension`. -/
def get_doctrine_tension (d1 d2 : Dt) : ℚ :=
  if d1 = d2 then 0 else DOCTRINE_COMPATIBILITY d1 d2

/-- `doctrines.py` `DoctrineProfile` (carries `conflict_dissonance`). -/
structure MProfile where
  doctrine_type : Dt
  strength : ℚ
  time_indoctrinated : ℕ
  guru_id : Option ℤ
  conflict_dissonance : ℚ
deriving DecidableEq

/-- `DoctrineProfile.update` (doctrines.py). -/
def MProfile.update (p : MProfile) : MProfile :=
  { p with
    time_indoctrinated := p.time_indoctrinated + 1
    strength := min 1 (p.strength + 0.02) }

/-- `DoctrineProfile.apply_conflict_damage`. -/
def MProfile.apply_conflict_damage (p : MProfile) (tension : ℚ) : MProfile :=
  { p with
    conflict_dissonance := p.conflict_dissonance + tension
    strength := max 0 (p.strength - tension * 0.3) }

/-- `ARCHETYPE_VULNERABILITIES` (doctrines.py; complete 5×5 matrix). -/
def ARCHETYPE_VULNERABILITIES : Arch → Dt → ℚ
  | Arch.PRAGMATIST, Dt.MERITOCRATIC => 0.8
  | Arch.PRAGMATIST, Dt.LIBERTARIAN_CULT => 0.7
  | Arch.PRAGMATIST, Dt.TRANSCENDENT => 0.2
  | Arch.PRAGMATIST, Dt.CONSPIRATORIAL => 0.3
  | Arch.PRAGMATIST, Dt.REVOLUTIONARY => 0.4
  | Arch.IDEALIST, Dt.TRANSCENDENT => 0.9
  | Arch.IDEALIST, Dt.REVOLUTIONARY => 0.85
  | Arch.IDEALIST, Dt.CONSPIRATORIAL => 0.4
  | Arch.IDEALIST, Dt.MERITOCRATIC => 0.5
  | Arch.IDEALIST, Dt.LIBERTARIAN_CULT => 0.3
  | Arch.ANXIOUS, Dt.CONSPIRATORIAL => 0.95
  | Arch.ANXIOUS, Dt.TRANSCENDENT => 0.85
  | Arch.ANXIOUS, Dt.MERITOCRATIC => 0.6
  | Arch.ANXIOUS, Dt.LIBERTARIAN_CULT => 0.4
  | Arch.ANXIOUS, Dt.REVOLUTIONARY => 0.3
  | Arch.OUTSIDER, Dt.REVOLUTIONARY => 0.95
  | Arch.OUTSIDER, Dt.CONSPIRATORIAL => 0.85
  | Arch.OUTSIDER, Dt.LIBERTARIAN_CULT => 0.7
  | Arch.OUTSIDER, Dt.TRANSCENDENT => 0.3
  | Arch.OUTSIDER, Dt.MERITOCRATIC => 0.2
  | Arch.HEDONIST, Dt.LIBERTARIAN_CULT => 0.8
  | Arch.HEDONIST, Dt.MERITOCRATIC => 0.7
  | Arch.HEDONIST, Dt.CONSPIRATORIAL => 0.6
  | Arch.HEDONIST, Dt.TRANSCENDENT => 0.4
  | Arch.HEDONIST, Dt.REVOLUTIONARY => 0.2

/-- Registry `override_frequency` per doctrine (DoctrineRegistry). -/
def override_frequency : Dt → ℚ
  | Dt.MERITOCRATIC => 0.8
  | Dt.TRANSCENDENT => 0.95
  | Dt.CONSPIRATORIAL => 0.85
  | Dt.REVOLUTIONARY => 0.9
  | Dt.LIBERTARIAN_CULT => 0.75

/-- Registry `forces_zone` per doctrine. -/
def forces_zone : Dt → Zone
  | Dt.MERITOCRATIC => Zone.TRADE
  | Dt.TRANSCENDENT => Zone.PANTHEON
  | Dt.CONSPIRATORIAL => Zone.PANTHEON
  | Dt.REVOLUTIONARY => Zone.PANTHEON
  | Dt.LIBERTARIAN_CULT => Zone.TRADE

/-- Registry `recovery_time` per doctrine. -/
def recovery_time : Dt → ℕ
  | Dt.MERITOCRATIC => 200
  | Dt.TRANSCENDENT => 400
  | Dt.CONSPIRATORIAL => 250
  | Dt.REVOLUTIONARY => 180
  | Dt.LIBERTARIAN_CULT => 220

/-- The mutable fields of a `DoctrineMixin` host that the mixin methods read
or write (`init_doctrine_fields` plus the psychological-state fields of the
host NPC). -/
structure MixState where
  self_esteem : ℚ
  stress_endured : ℚ
  coherence : ℚ
  money : ℚ
  archetype : Arch
  doctrine_profile : Option MProfile
  doctrine_history : List HistEntry
  deradicalization_timer : ℕ
  injustice_accumulated : ℚ
  collapse_cycle_count : ℕ
  has_witnessed_system_failure : Bool
  doctrine_conflict_stress : ℚ
deriving DecidableEq

/-- `DoctrineMixin.begin_deradicalization`. -/
def begin_deradicalization (a : MixState) (d : Dt) (tick : ℕ) : MixState :=
  { a with
    deradicalization_timer := recovery_time d
    doctrine_history := appendCap 50 a.doctrine_history (tick, some d, HistTag.ESCAPE_BEGUN) }

/-- The fresh-indoctrination attempt of `DoctrineMixin.expose_to_doctrine`
(the code below the held-doctrine block). -/
def expose_attempt (a : MixState) (d : Dt) (guru : Option ℤ) (tick : ℕ) (rs : RandS) :
    Bool × MixState × RandS :=
  let base_vuln := ARCHETYPE_VULNERABILITIES a.archetype d
  let stress_factor := min 1 (a.stress_endured / 80)
  let coherence_factor := (1 - a.coherence) * 0.5
  let suscept := base_vuln * 0.6 + stress_factor * 0.2 + coherence_factor * 0.2
  let dr := drawRand rs
  if suscept > dr.1 then
    (true,
      { a with
        doctrine_profile := some ⟨d, 0.1, 0, guru, 0⟩
        doctrine_history := appendCap 50 a.doctrine_history (tick, some d, HistTag.EXPOSED) },
      dr.2)
  else (false, a, dr.2)

/-- `DoctrineMixin.expose_to_doctrine`.  Note the source's control flow: the
held-doctrine block returns only in the same-doctrine, synergy (`tension <
0`) and conflict (`tension > 0`) cases; an exactly-zero tension between two
distinct held/incoming doctrines would fall through to the fresh attempt
(unreachable for the complete compatibility matrix above). -/
def expose_to_doctrine (a : MixState) (d : Dt) (guru : Option ℤ) (tick : ℕ) (rs : RandS) :
    Bool × MixState × RandS :=
  match a.doctrine_profile with
  | some p =>
    if p.doctrine_type = d then
      (false,
        { a with doctrine_profile := some { p with strength := min 1 (p.strength + 0.01) } },
        rs)
    else
      let tension := get_doctrine_tension p.doctrine_type d
      if tension < 0 then
        (false,
          { a with
            doctrine_profile := some { p with strength := min 1 (p.strength + |tension|) }
            self_esteem := min 1 (a.self_esteem + |tension| * 0.5) },
          rs)
      else if tension > 0 then
        let p2 := p.apply_conflict_damage tension
        let b := { a with
          doctrine_profile := some p2
          doctrine_conflict_stress := a.doctrine_conflict_stress + tension
          stress_endured := min 100 (a.stress_endured + tension * 10) }
        let b :=
          if p2.conflict_dissonance > 1 then
            begin_deradicalization
              { b with
                doctrine_history :=
                  appendCap 50 b.doctrine_history (tick, some p2.doctrine_type, HistTag.DOCTRINE_COLLAPSE) }
              p2.doctrine_type tick
          else b
        (false, b, rs)
      else expose_attempt a d guru tick rs
  | none => expose_attempt a d guru tick rs

/-- `EscapeChecks` dispatched per doctrine, as `deepen_indoctrination` calls
`spec.check_escape(self)` (the CONSPIRATORIAL arm only draws when
`has_witnessed_system_failure` holds: Python `and` short-circuits). -/
def check_escape (a : MixState) (d : Dt) (rs : RandS) : Bool × RandS :=
  match d with
  | Dt.MERITOCRATIC => (decide (a.stress_endured > 75 ∧ a.money < 20), rs)
  | Dt.TRANSCENDENT => (decide (a.collapse_cycle_count > 3 ∧ a.coherence < 0.4), rs)
  | Dt.CONSPIRATORIAL =>
    if a.has_witnessed_system_failure then
      let dr := drawRand rs
      (decide (dr.1 < 0.02), dr.2)
    else (false, rs)
  | Dt.REVOLUTIONARY => (decide (a.stress_endured < 40 ∧ a.money > 100), rs)
  | Dt.LIBERTARIAN_CULT => (decide (a.stress_endured > 70 ∧ a.coherence < 0.45), rs)

/-- `PsychologicalEffects` dispatched per doctrine, as
`deepen_indoctrination` calls `spec.apply_effects(self)`. -/
def apply_effects (a : MixState) (d : Dt) : MixState :=
  match d with
  | Dt.MERITOCRATIC =>
    if a.money < 30 then
      { a with
        self_esteem := max 0 (a.self_esteem - 0.03)
        stress_endured := min 100 (a.stress_endured + 2) }
    else { a with self_esteem := min 1 (a.self_esteem + 0.02) }
  | Dt.TRANSCENDENT =>
    { a with
      stress_endured := a.stress_endured * 0.9
      coherence := min 1 (a.coherence + 0.05)
      self_esteem := min 1 (a.self_esteem + 0.02) }
  | Dt.CONSPIRATORIAL =>
    { a with
      stress_endured := min 100 (a.stress_endured + 1)
      self_esteem := min 1 (a.self_esteem + 0.01) }
  | Dt.REVOLUTIONARY =>
    { a with
      stress_endured := min 100 (a.stress_endured + 0.5)
      self_esteem := min 1 (a.self_esteem + 0.03)
      coherence := max 0 (a.coherence - 0.02) }
  | Dt.LIBERTARIAN_CULT =>
    let b :=
      if a.money > 150 then { a with self_esteem := min 1 (a.self_esteem + 0.04) }
      else a
    { b with stress_endured := min 100 (b.stress_endured + 0.5) }

/-- `DoctrineMixin.deepen_indoctrination`. -/
def deepen_indoctrination (a : MixState) (tick : ℕ) (rs : RandS) : MixState × RandS :=
  match a.doctrine_profile with
  | none => (a, rs)
  | some p =>
    let esc := check_escape a p.doctrine_type rs
    if esc.1 = true ∨ p.conflict_dissonance > 0.8 then
      (begin_deradicalization a p.doctrine_type tick, esc.2)
    else
      let b := { a with doctrine_profile := some p.update }
      let b := apply_effects b p.doctrine_type
      let b :=
        match b.doctrine_profile with
        | some q => { b with doctrine_profile := some { q with conflict_dissonance := q.conflict_dissonance * 0.98 } }
        | none => b
      (b, esc.2)

/-- `DoctrineMixin.update_deradicalization`. -/
def update_deradicalization (a : MixState) (tick : ℕ) : MixState :=
  if a.deradicalization_timer ≤ 0 then
    { a with
      doctrine_profile := none
      doctrine_conflict_stress := a.doctrine_conflict_stress * 0.9
      doctrine_history := appendCap 50 a.doctrine_history (tick, none, HistTag.RECOVERED) }
  else
    { a with
      deradicalization_timer := a.deradicalization_timer - 1
      coherence := min 1 (a.coherence + 0.005) }

/-- `DoctrineMixin.get_doctrine_override`: the draw is tested against
`override_frequency * profile.strength`. -/
def get_doctrine_override (a : MixState) (rs : RandS) : Option Zone × RandS :=
  match a.doctrine_profile with
  | none => (none, rs)
  | some p =>
    let override_strength := override_frequency p.doctrine_type * p.strength
    let dr := drawRand rs
    if dr.1 > override_strength then (none, dr.2)
    else
      match p.doctrine_type with
      | Dt.MERITOCRATIC =>
        (if a.money < 50 then some Zone.TRADE else none, dr.2)
      | Dt.REVOLUTIONARY =>
        let dr2 := drawRand dr.2
        (if dr2.1 < 0.3 then some Zone.DEVELOPMENT else some Zone.PANTHEON, dr2.2)
      | _ => (some (forces_zone p.doctrine_type), dr.2)

end Mix

/-- The fallback configuration of `99.py` `load_config`. -/
def defaultConfig : Npc.Config :=
  { inertia := 0.8
    shift_duration := 300
    travel_ratio_val := 0.25
    zone_travel_costs := fun t =>
      match t with
      | Tgt.Z Zone.SCIENCE => some (0.15, 0.05)
      | Tgt.Z Zone.TRADE => some (0.10, 0.03)
      | Tgt.Z Zone.DEVELOPMENT => some (0.20, 0.08)
      | Tgt.Z Zone.FLEX => some (0.05, 0.02)
      | Tgt.Z Zone.PANTHEON => some (0.05, 0)
      | Tgt.HOME => none }

/-- A small anchor map used by the concrete evaluations: HOME at the origin
and SCIENCE at `(3,4)` (distance `5` from the origin, an exact rational). -/
def anchorsW : Npc.Anchors := fun t =>
  match t with
  | Tgt.HOME => some (0, 0)
  | Tgt.Z Zone.SCIENCE => some (3, 4)
  | _ => none

/-- Concrete agent holding a MERITOCRATIC profile (npc.py class). -/
def aC1 : Npc.NPC :=
  { Npc.mkNPC 0 0 190 100 0.7 0 with
    doctrine_profile := some ⟨Dt.MERITOCRATIC, 0.5, 7, none⟩ }

/-- Concrete mixin host holding a MERITOCRATIC profile. -/
def mC1 : Mix.MixState :=
  { self_esteem := 0.7
    stress_endured := 10
    coherence := 0.7
    money := 190
    archetype := Arch.PRAGMATIST
    doctrine_profile := some ⟨Dt.MERITOCRATIC, 0.5, 7, none, 0⟩
    doctrine_history := []
    deradicalization_timer := 0
    injustice_accumulated := 0
    collapse_cycle_count := 0
    has_witnessed_system_failure := false
    doctrine_conflict_stress := 0 }

/-- Concrete recovering agent: held profile, deradicalization timer `1`. -/
def aC2 : Npc.NPC :=
  { Npc.mkNPC 0 0 25 100 0.7 0 with
    doctrine_profile := some ⟨Dt.MERITOCRATIC, 0.3, 5, none⟩
    deradicalization_timer := 1 }

/-- Concrete travelling agent with zero money, en route to SCIENCE. -/
def aC4 : Npc.NPC :=
  { Npc.mkNPC 0 0 0 100 0.7 0 with
    state := NState.TRAVELING
    target := some (Tgt.Z Zone.SCIENCE) }

/-- Concrete mixin host: MERITOCRATIC profile with zero dissonance. -/
def mC5 : Mix.MixState :=
  { self_esteem := 0.7
    stress_endured := 10
    coherence := 0.7
    money := 190
    archetype := Arch.PRAGMATIST
    doctrine_profile := some ⟨Dt.MERITOCRATIC, 0.5, 7, none, 0⟩
    doctrine_history := []
    deradicalization_timer := 0
    injustice_accumulated := 0
    collapse_cycle_count := 0
    has_witnessed_system_failure := false
    doctrine_conflict_stress := 0 }

/-- Concrete poor agent with a weak MERITOCRATIC profile (npc.py class). -/
def aC6 : Npc.NPC :=
  { Npc.mkNPC 0 0 10 100 0.7 0 with
    doctrine_profile := some ⟨Dt.MERITOCRATIC, 0.1, 3, none⟩ }

/-- Concrete poor mixin host with a weak MERITOCRATIC profile. -/
def mC6 : Mix.MixState :=
  { self_esteem := 0.7
    stress_endured := 10
    coherence := 0.7
    money := 10
    archetype := Arch.PRAGMATIST
    doctrine_profile := some ⟨Dt.MERITOCRATIC, 0.1, 3, none, 0⟩
    doctrine_history := []
    deradicalization_timer := 0
    injustice_accumulated := 0
    collapse_cycle_count := 0
    has_witnessed_system_failure := false
    doctrine_conflict_stress := 0 }

/-- The §8 scenario agent: PRAGMATIST, money 10, stress 60, coherence 0.5,
no profile. -/
def aC7 : Npc.NPC := Npc.mkNPC 0 0 10 100 0.5 60

/-- Mixin host with the same scenario fields and no profile. -/
def mC7 : Mix.MixState :=
  { self_esteem := 0.7
    stress_endured := 60
    coherence := 0.5
    money := 10
    archetype := Arch.PRAGMATIST
    doctrine_profile := none
    doctrine_history := []
    deradicalization_timer := 0
    injustice_accumulated := 0
    collapse_cycle_count := 0
    has_witnessed_system_failure := false
    doctrine_conflict_stress := 0 }

/-- Concrete agent holding a TRANSCENDENT profile (npc.py class). -/
def aC8 : Npc.NPC :=
  { Npc.mkNPC 0 0 190 100 0.7 0 with
    doctrine_profile := some ⟨Dt.TRANSCENDENT, 0.4, 12, some 2⟩ }

/-- Concrete mixin host holding a TRANSCENDENT profile. -/
def mC8 : Mix.MixState :=
  { self_esteem := 0.7
    stress_endured := 10
    coherence := 0.7
    money := 190
    archetype := Arch.PRAGMATIST
    doctrine_profile := some ⟨Dt.TRANSCENDENT, 0.4, 12, some 2, 0.2⟩
    doctrine_history := []
    deradicalization_timer := 0
    injustice_accumulated := 0
    collapse_cycle_count := 0
    has_witnessed_system_failure := false
    doctrine_conflict_stress := 0 }

/-- A freshly initialized agent (all collapse state at its defaults). -/
def aC9 : Npc.NPC := Npc.mkNPC 0 0 190 100 0.7 0

/-- The TRANSCENDENT escape predicate (`EscapeChecks.transcendent` /
npc.py `_check_escape_conditions` TRANSCENDENT arm):
`collapse_cycle_count > 3 and coherence < 0.4`. -/
def transcendent_escape_pred (a : Npc.NPC) : Bool :=
  decide (a.collapse_cycle_count > 3 ∧ a.coherence < 0.4)

/-- The REVOLUTIONARY exposure predicate (`ExposureChecks.revolutionary`):
`collapse_cycle_count > 2 and coherence < 0.4`. -/
def revolutionary_exposure_pred (a : Npc.NPC) : Bool :=
  decide (a.collapse_cycle_count > 2 ∧ a.coherence < 0.4)

/-- Collapse bookkeeping invariant: the cycle counter never exceeds `1`, and
is `0` while the sticky `is_collapsing` flag is still down. -/
def collapseInv (a : Npc.NPC) : Prop :=
  a.collapse_cycle_count ≤ if a.is_collapsing then 1 else 0

/-- Iterated per-agent tick updates (`act` driven by `World.step`), each
step with its own anchors/config/tick/draw stream. -/
def actTrace (a : Npc.NPC) : List (Npc.Anchors × Npc.Config × ℕ × RandS) → Npc.NPC
  | [] => a
  | s :: rest => actTrace (Npc.act a s.1 s.2.1 s.2.2.1 s.2.2.2).1 rest

/-- Observation tuple: the doctrine-side fields of an agent
(archetype, held profile, deradicalization timer). -/
def frameA (a : Npc.NPC) : Arch × Option Npc.DoctrineProfile × ℕ :=
  (a.archetype, a.doctrine_profile, a.deradicalization_timer)

/-- Observation tuple: the collapse bookkeeping fields of an agent. -/
def frameB (a : Npc.NPC) : Bool × ℕ :=
  (a.is_collapsing, a.collapse_cycle_count)

/-- C3: the spec claims world-initialization assigns distinct, monotonically
increasing agent ids; in the code every agent's id is `1`, because the
dataclass default factory rebuilds `itertools.count(1)` on each call.  This
theorem evaluates the id sequence of an `n`-agent world: all ids equal 1. -/
theorem c3_theorem (homeX homeY : ℚ) (n : ℕ) (rs : RandS) :
    ((Npc.initNpcs homeX homeY n rs).1.map Npc.NPC.id) = List.replicate n 1 := by
  induction n generalizing rs with
  | zero => simp [Npc.initNpcs]
  | succ k ih =>
    simp [Npc.initNpcs, Npc.mkNPC, Npc.npcIdDefault, Npc.itertools_count_first,
      List.replicate_succ, ih]

/-- C8: same-doctrine re-exposure (both implementations) returns `false` and
only nudges the held profile's strength, leaving every other agent field —
in particular `time_indoctrinated`, the doctrine type and the guru id — and
the rest of the profile unchanged; the strength move is upward (for the
mixin, under the documented `strength ≤ 1` range). -/
theorem c8_theorem :
    (∀ (a : Npc.NPC) (g : Option ℤ) (t : ℕ) (rs : RandS) (p : Npc.DoctrineProfile),
      a.doctrine_profile = some p →
        Npc.expose_to_doctrine a p.doctrine_type g t rs
          = (false, { a with doctrine_profile := some { p with strength := p.strength + 0.01 } }, rs)
        ∧ p.strength ≤ p.strength + 0.01)
  ∧ (∀ (a : Mix.MixState) (g : Option ℤ) (t : ℕ) (rs : RandS) (p : Mix.MProfile),
      a.doctrine_profile = some p →
        Mix.expose_to_doctrine a p.doctrine_type g t rs
          = (false, { a with doctrine_profile := some { p with strength := min 1 (p.strength + 0.01) } }, rs)
        ∧ (p.strength ≤ 1 → p.strength ≤ min 1 (p.strength + 0.01))) := by
  constructor
  · intro a g t rs p hp
    refine ⟨?_, by linarith⟩
    unfold Npc.expose_to_doctrine
    rw [hp]
    simp
  · intro a g t rs p hp
    refine ⟨?_, fun hs => le_min hs (by linarith)⟩
    unfold Mix.expose_to_doctrine
    rw [hp]
    simp

/-- C8 witness: the theorem applied to the concrete holders `aC8`/`mC8`. -/
theorem c8_witness :
    (Npc.expose_to_doctrine aC8 Dt.TRANSCENDENT none 9 []
        = (false, { aC8 with doctrine_profile := some ⟨Dt.TRANSCENDENT, 0.4 + 0.01, 12, some 2⟩ }, [])
      ∧ (0.4 : ℚ) ≤ 0.4 + 0.01)
  ∧ (Mix.expose_to_doctrine mC8 Dt.TRANSCENDENT none 9 []
        = (false, { mC8 with doctrine_profile := some ⟨Dt.TRANSCENDENT, min 1 (0.4 + 0.01), 12, some 2, 0.2⟩ }, [])
      ∧ ((0.4 : ℚ) ≤ 1 → (0.4 : ℚ) ≤ min 1 (0.4 + 0.01))) :=
  ⟨c8_theorem.1 aC8 none 9 [] ⟨Dt.TRANSCENDENT, 0.4, 12, some 2⟩ rfl,
   c8_theorem.2 mC8 none 9 [] ⟨Dt.TRANSCENDENT, 0.4, 12, some 2, 0.2⟩ rfl⟩

/-- C5 counterexample: one MERITOCRATIC-holds, REVOLUTIONARY-encountered
conflict application makes `conflict_dissonance` equal to `0.09`, not the
`0.10` the claim states (the matrix entry for (MERITOCRATIC held,
REVOLUTIONARY encountered) is `0.09`; `0.10` is the opposite direction). -/
theorem c5_counterexample :
    ((Mix.expose_to_doctrine mC5 Dt.REVOLUTIONARY none 0 []).2.1.doctrine_profile.map
        Mix.MProfile.conflict_dissonance = some 0.09)
    ∧ ¬((0.09 : ℚ) = 0.10) := by
  constructor
  · simp [Mix.expose_to_doctrine, Mix.get_doctrine_tension, Mix.DOCTRINE_COMPATIBILITY,
      Mix.MProfile.apply_conflict_damage, mC5]
    norm_num
  · norm_num

/-- C5 (amended): for an agent holding a MERITOCRATIC profile with zero
conflict dissonance, a single REVOLUTIONARY exposure is deterministic (the
draw stream is returned untouched) and produces exactly: tension `0.09`
applied, `conflict_dissonance = 0.09`, held strength reduced by `0.027`
(floored at 0), stress raised by `0.9` (capped at 100), and no new
exposure. -/
theorem c5_theorem (a : Mix.MixState) (p : Mix.MProfile) (g : Option ℤ) (t : ℕ) (rs : RandS)
    (hp : a.doctrine_profile = some p)
    (hd : p.doctrine_type = Dt.MERITOCRATIC)
    (hc : p.conflict_dissonance = 0) :
    Mix.expose_to_doctrine a Dt.REVOLUTIONARY g t rs
      = (false,
         { a with
            doctrine_profile := some
              { p with strength := max 0 (p.strength - 0.027), conflict_dissonance := 0.09 }
            doctrine_conflict_stress := a.doctrine_conflict_stress + 0.09
            stress_endured := min 100 (a.stress_endured + 0.9) },
         rs) := by
  obtain ⟨pd, ps, pt, pg, pc⟩ := p
  simp only at hd hc
  subst hd hc
  unfold Mix.expose_to_doctrine
  rw [hp]
  simp [Mix.get_doctrine_tension, Mix.DOCTRINE_COMPATIBILITY,
    Mix.MProfile.apply_conflict_damage]
  norm_num

/-- C5 witness: the amended theorem at the concrete holder `mC5`. -/
theorem c5_witness :
    Mix.expose_to_doctrine mC5 Dt.REVOLUTIONARY none 0 []
      = (false,
         { mC5 with
            doctrine_profile := some ⟨Dt.MERITOCRATIC, max 0 (0.5 - 0.027), 7, none, 0.09⟩
            doctrine_conflict_stress := mC5.doctrine_conflict_stress + 0.09
            stress_endured := min 100 (mC5.stress_endured + 0.9) },
         []) :=
  c5_theorem mC5 ⟨Dt.MERITOCRATIC, 0.5, 7, none, 0⟩ none 0 [] rfl rfl rfl

/-- C6 counterexample: the claim says the override succeeds only when the
draw is below `override_frequency × strength`; on the `NPC` class, with a
MERITOCRATIC profile of strength `0.1` (so `0.8 × 0.1 = 0.08`) and draw
`0.5`, the override nevertheless succeeds and forces TRADE, because npc.py
tests the draw against the raw `override_frequency` only. -/
theorem c6_counterexample :
    (Npc.get_doctrine_override aC6 [0.5]).1 = some Zone.TRADE
    ∧ ¬((0.5 : ℚ) < 0.8 * 0.1) := by
  constructor
  · simp [Npc.get_doctrine_override, Npc.overridesTable, aC6, Npc.mkNPC, drawRand]
    norm_num
  · norm_num

/-- C6 (amended): the stated law — fail unless the draw is at most
`override_frequency × strength`, then MERITOCRATIC forces TRADE only when
`money < 50` (else no override), REVOLUTIONARY forces DEVELOPMENT on a
second draw below 0.3 and PANTHEON otherwise, and every other doctrine its
configured `forces_zone` — holds for the `DoctrineMixin` implementation;
the `NPC` implementation obeys the same success-branch logic but draws
against the unscaled `override_frequency`. -/
theorem c6_theorem :
    (∀ (a : Mix.MixState) (p : Mix.MProfile) (r r2 : ℚ) (rest : RandS),
      a.doctrine_profile = some p →
        (Mix.get_doctrine_override a (r :: r2 :: rest)).1
          = if r > Mix.override_frequency p.doctrine_type * p.strength then none
            else
              match p.doctrine_type with
              | Dt.MERITOCRATIC => if a.money < 50 then some Zone.TRADE else none
              | Dt.REVOLUTIONARY =>
                if r2 < 0.3 then some Zone.DEVELOPMENT else some Zone.PANTHEON
              | d => some (Mix.forces_zone d))
  ∧ (∀ (a : Npc.NPC) (p : Npc.DoctrineProfile) (r r2 : ℚ) (rest : RandS),
      a.doctrine_profile = some p →
        (Npc.get_doctrine_override a (r :: r2 :: rest)).1
          = if r > (Npc.overridesTable p.doctrine_type).2 then none
            else
              match p.doctrine_type with
              | Dt.MERITOCRATIC => if a.money < 50 then some Zone.TRADE else none
              | Dt.REVOLUTIONARY =>
                if r2 < 0.3 then some Zone.DEVELOPMENT else some Zone.PANTHEON
              | d => some (Npc.overridesTable d).1) := by
  constructor
  · intro a p r r2 rest hp
    unfold Mix.get_doctrine_override
    rw [hp]
    obtain ⟨pd, ps, pt, pg, pc⟩ := p
    cases pd <;> simp [drawRand, Mix.forces_zone] <;> split <;> simp
  · intro a p r r2 rest hp
    unfold Npc.get_doctrine_override
    rw [hp]
    obtain ⟨pd, ps, pt, pg⟩ := p
    cases pd <;> simp [drawRand, Npc.overridesTable] <;> split <;> simp

/-- C6 witness: the amended theorem at the concrete holders `mC6`/`aC6`. -/
theorem c6_witness :
    ((Mix.get_doctrine_override mC6 [0.5, 0.2]).1
        = if (0.5 : ℚ) > Mix.override_frequency Dt.MERITOCRATIC * 0.1 then none
          else if mC6.money < 50 then some Zone.TRADE else none)
  ∧ ((Npc.get_doctrine_override aC6 [0.5, 0.2]).1
        = if (0.5 : ℚ) > (Npc.overridesTable Dt.MERITOCRATIC).2 then none
          else if aC6.money < 50 then some Zone.TRADE else none) :=
  ⟨c6_theorem.1 mC6 ⟨Dt.MERITOCRATIC, 0.1, 3, none, 0⟩ 0.5 0.2 [] rfl,
   c6_theorem.2 aC6 ⟨Dt.MERITOCRATIC, 0.1, 3, none⟩ 0.5 0.2 [] rfl⟩

/-- C7: for an agent holding no profile, an exposure attempt succeeds
exactly when the susceptibility score
`0.6·vuln + 0.2·min(1,stress/80) + 0.2·(1−coherence)·0.5` exceeds the
uniform draw; on success it installs a fresh profile of strength `0.1` and
appends an EXPOSED history entry (both implementations); and the §8
scenario agent (PRAGMATIST, stress 60, coherence 0.5) facing MERITOCRATIC
has susceptibility exactly `0.68`. -/
theorem c7_theorem :
    (∀ (a : Npc.NPC) (d : Dt) (g : Option ℤ) (t : ℕ) (r : ℚ) (rest : RandS),
      a.doctrine_profile = none →
        ((Npc.expose_to_doctrine a d g t (r :: rest)).1 = true ↔ Npc.susceptibility a d > r)
        ∧ (Npc.susceptibility a d > r →
            (Npc.expose_to_doctrine a d g t (r :: rest)).2.1
              = { a with
                  doctrine_profile := some ⟨d, 0.1, 0, g⟩
                  doctrine_history :=
                    appendCap 50 a.doctrine_history (t, some d, HistTag.EXPOSED) }))
  ∧ Npc.susceptibility aC7 Dt.MERITOCRATIC = 0.68
  ∧ (∀ (a : Mix.MixState) (d : Dt) (g : Option ℤ) (t : ℕ) (r : ℚ) (rest : RandS),
      a.doctrine_profile = none →
        ((Mix.expose_to_doctrine a d g t (r :: rest)).1 = true ↔
          Mix.ARCHETYPE_VULNERABILITIES a.archetype d * 0.6
            + min 1 (a.stress_endured / 80) * 0.2 + (1 - a.coherence) * 0.5 * 0.2 > r)
        ∧ (Mix.ARCHETYPE_VULNERABILITIES a.archetype d * 0.6
            + min 1 (a.stress_endured / 80) * 0.2 + (1 - a.coherence) * 0.5 * 0.2 > r →
            (Mix.expose_to_doctrine a d g t (r :: rest)).2.1
              = { a with
                  doctrine_profile := some ⟨d, 0.1, 0, g, 0⟩
                  doctrine_history :=
                    appendCap 50 a.doctrine_history (t, some d, HistTag.EXPOSED) })) := by
  refine ⟨?_, ?_, ?_⟩
  · intro a d g t r rest hp
    unfold Npc.expose_to_doctrine Npc.expose_attempt
    rw [hp]
    constructor
    · constructor
      · intro h
        by_contra hs
        simp [drawRand, if_neg hs] at h
      · intro hs
        simp [drawRand, if_pos hs]
    · intro hs
      simp [drawRand, if_pos hs]
  · norm_num [Npc.susceptibility, aC7, Npc.mkNPC, Npc.npcVulnerability]
  · intro a d g t r rest hp
    unfold Mix.expose_to_doctrine Mix.expose_attempt
    rw [hp]
    constructor
    · constructor
      · intro h
        by_contra hs
        simp [drawRand, if_neg hs] at h
      · intro hs
        simp [drawRand, if_pos hs]
    · intro hs
      simp [drawRand, if_pos hs]

/-- C7 witness: the theorem instantiated at the §8 scenario agent with a
concrete draw `0.5 < 0.68`. -/
theorem c7_witness :
    ((Npc.expose_to_doctrine aC7 Dt.MERITOCRATIC none 3 [0.5]).1 = true ↔
      Npc.susceptibility aC7 Dt.MERITOCRATIC > 0.5)
  ∧ ((Mix.expose_to_doctrine mC7 Dt.MERITOCRATIC none 3 [0.5]).1 = true ↔
      Mix.ARCHETYPE_VULNERABILITIES mC7.archetype Dt.MERITOCRATIC * 0.6
        + min 1 (mC7.stress_endured / 80) * 0.2 + (1 - mC7.coherence) * 0.5 * 0.2 > 0.5) :=
  ⟨(c7_theorem.1 aC7 Dt.MERITOCRATIC none 3 0.5 [] rfl).1,
   (c7_theorem.2.2 mC7 Dt.MERITOCRATIC none 3 0.5 [] rfl).1⟩

/-- In the compatibility matrix, a zero tension only arises between equal
doctrine types (every distinct pair carries a nonzero entry). -/
theorem mix_tension_zero_eq (d1 d2 : Dt) (h : Mix.get_doctrine_tension d1 d2 = 0) :
    d1 = d2 := by
  cases d1 <;> cases d2 <;>
    first
      | rfl
      | (simp [Mix.get_doctrine_tension, Mix.DOCTRINE_COMPATIBILITY] at h
         norm_num at h)

/-- C1 counterexample: on the `NPC` class, an agent already holding a
MERITOCRATIC profile and exposed to a *different* doctrine (REVOLUTIONARY)
with a low draw adopts the new doctrine and the call returns `true` —
npc.py's exposure has no conflict branch, so the claim fails as stated. -/
theorem c1_counterexample :
    aC1.doctrine_profile.map Npc.DoctrineProfile.doctrine_type = some Dt.MERITOCRATIC
    ∧ (Npc.expose_to_doctrine aC1 Dt.REVOLUTIONARY none 5 [0]).1 = true
    ∧ (Npc.expose_to_doctrine aC1 Dt.REVOLUTIONARY none 5 [0]).2.1.doctrine_profile.map
        Npc.DoctrineProfile.doctrine_type = some Dt.REVOLUTIONARY := by
  refine ⟨rfl, ?_, ?_⟩ <;>
    · simp [Npc.expose_to_doctrine, Npc.expose_attempt, Npc.susceptibility,
        Npc.npcVulnerability, aC1, Npc.mkNPC, drawRand]
      norm_num

/-- C1 (amended): no-adoption-while-holding is exact for the
`DoctrineMixin` exposure (any held profile, any incoming doctrine: the held
doctrine type survives and the call reports `false`); for the `NPC` class
it holds only in the same-doctrine case — a different-doctrine exposure may
adopt the incoming doctrine (see the counterexample). -/
theorem c1_theorem :
    (∀ (a : Mix.MixState) (d : Dt) (g : Option ℤ) (t : ℕ) (rs : RandS) (p : Mix.MProfile),
      a.doctrine_profile = some p →
        (Mix.expose_to_doctrine a d g t rs).1 = false
        ∧ (Mix.expose_to_doctrine a d g t rs).2.1.doctrine_profile.map
            Mix.MProfile.doctrine_type = some p.doctrine_type)
  ∧ (∀ (a : Npc.NPC) (g : Option ℤ) (t : ℕ) (rs : RandS) (p : Npc.DoctrineProfile),
      a.doctrine_profile = some p →
        (Npc.expose_to_doctrine a p.doctrine_type g t rs).1 = false
        ∧ (Npc.expose_to_doctrine a p.doctrine_type g t rs).2.1.doctrine_profile.map
            Npc.DoctrineProfile.doctrine_type = some p.doctrine_type) := by
  constructor
  · intro a d g t rs p hp
    unfold Mix.expose_to_doctrine
    rw [hp]
    obtain ⟨pd, ps, pt, pg, pc⟩ := p
    dsimp only
    by_cases hd : pd = d
    · subst hd
      simp
    · rcases lt_trichotomy (Mix.get_doctrine_tension pd d) 0 with ht | ht | ht
      · rw [if_neg hd, if_pos ht]
        simp
      · exact absurd (mix_tension_zero_eq pd d ht) hd
      · rw [if_neg hd, if_neg (by linarith), if_pos ht]
        split <;>
          simp [Mix.begin_deradicalization, Mix.MProfile.apply_conflict_damage]
  · intro a g t rs p hp
    unfold Npc.expose_to_doctrine
    rw [hp]
    simp

/-- C1 witness: the amended theorem at the concrete holders `mC1`
(different incoming doctrine) and `aC1` (same incoming doctrine). -/
theorem c1_witness :
    ((Mix.expose_to_doctrine mC1 Dt.REVOLUTIONARY none 5 []).1 = false
      ∧ (Mix.expose_to_doctrine mC1 Dt.REVOLUTIONARY none 5 []).2.1.doctrine_profile.map
          Mix.MProfile.doctrine_type = some Dt.MERITOCRATIC)
  ∧ ((Npc.expose_to_doctrine aC1 Dt.MERITOCRATIC none 5 []).1 = false
      ∧ (Npc.expose_to_doctrine aC1 Dt.MERITOCRATIC none 5 []).2.1.doctrine_profile.map
          Npc.DoctrineProfile.doctrine_type = some Dt.MERITOCRATIC) :=
  ⟨c1_theorem.1 mC1 Dt.REVOLUTIONARY none 5 [] ⟨Dt.MERITOCRATIC, 0.5, 7, none, 0⟩ rfl,
   c1_theorem.2 aC1 none 5 [] ⟨Dt.MERITOCRATIC, 0.5, 7, none⟩ rfl⟩

/-- Component reading of a `frameA` equation: archetype. -/
theorem frameA_archetype {x y : Npc.NPC} (h : frameA x = frameA y) :
    x.archetype = y.archetype := congrArg Prod.fst h

/-- Component reading of a `frameA` equation: held profile. -/
theorem frameA_profile {x y : Npc.NPC} (h : frameA x = frameA y) :
    x.doctrine_profile = y.doctrine_profile := congrArg (fun t => t.2.1) h

/-- Component reading of a `frameA` equation: deradicalization timer. -/
theorem frameA_timer {x y : Npc.NPC} (h : frameA x = frameA y) :
    x.deradicalization_timer = y.deradicalization_timer := congrArg (fun t => t.2.2) h

/-- Component reading of a `frameB` equation: the collapse flag. -/
theorem frameB_flag {x y : Npc.NPC} (h : frameB x = frameB y) :
    x.is_collapsing = y.is_collapsing := congrArg Prod.fst h

/-- Component reading of a `frameB` equation: the collapse counter. -/
theorem frameB_count {x y : Npc.NPC} (h : frameB x = frameB y) :
    x.collapse_cycle_count = y.collapse_cycle_count := congrArg Prod.snd h

/-- The collapse invariant travels along `frameB` equality. -/
theorem collapseInv_of_frameB {x y : Npc.NPC} (h : frameB x = frameB y)
    (hy : collapseInv y) : collapseInv x := by
  unfold collapseInv at hy ⊢
  rw [frameB_flag h, frameB_count h]
  exact hy

/-- `perform_work` never touches archetype, profile, timer or the collapse
flags. -/
theorem work_science_frame (a : Npc.NPC) (e : ℚ) :
    frameA (Npc.work_science a e) = frameA a ∧ frameB (Npc.work_science a e) = frameB a :=
  ⟨rfl, rfl⟩

theorem work_trade_frame (a : Npc.NPC) (e : ℚ) :
    frameA (Npc.work_trade a e) = frameA a ∧ frameB (Npc.work_trade a e) = frameB a := by
  refine ⟨?_, ?_⟩ <;>
    · unfold Npc.work_trade
      dsimp only
      split <;> rfl

theorem work_development_frame (a : Npc.NPC) (e : ℚ) :
    frameA (Npc.work_development a e) = frameA a ∧ frameB (Npc.work_development a e) = frameB a :=
  ⟨rfl, rfl⟩

theorem work_flex_frame (a : Npc.NPC) (e : ℚ) :
    frameA (Npc.work_flex a e) = frameA a ∧ frameB (Npc.work_flex a e) = frameB a :=
  ⟨rfl, rfl⟩

theorem work_pantheon_frame (a : Npc.NPC) :
    frameA (Npc.work_pantheon a) = frameA a ∧ frameB (Npc.work_pantheon a) = frameB a := by
  refine ⟨?_, ?_⟩ <;>
    · unfold Npc.work_pantheon
      dsimp only
      split_ifs <;> rfl

theorem skill_gain_frame (a : Npc.NPC) (z : Zone) (e : ℚ) :
    frameA (Npc.skill_gain a z e) = frameA a ∧ frameB (Npc.skill_gain a z e) = frameB a := by
  refine ⟨?_, ?_⟩ <;>
    · unfold Npc.skill_gain
      split <;> rfl

theorem clamp_work_frame (a : Npc.NPC) :
    frameA (Npc.clamp_work_resources a) = frameA a
    ∧ frameB (Npc.clamp_work_resources a) = frameB a :=
  ⟨rfl, rfl⟩

/-- `perform_work` never touches archetype, profile, timer or the collapse
flags. -/
theorem perform_work_frame (a : Npc.NPC) (cfg : Npc.Config) :
    frameA (Npc.perform_work a cfg) = frameA a
    ∧ frameB (Npc.perform_work a cfg) = frameB a := by
  refine ⟨?_, ?_⟩ <;>
    · unfold Npc.perform_work
      dsimp only
      split
      case isFalse h => rfl
      case isTrue h =>
        cases hz : a.zone with
        | none => simp [hz, Npc.clamp_work_resources, frameA, frameB]
        | some z =>
          cases z <;>
            simp [hz, (clamp_work_frame _).1, (clamp_work_frame _).2,
              (skill_gain_frame _ _ _).1, (skill_gain_frame _ _ _).2,
              (work_science_frame _ _).1, (work_science_frame _ _).2,
              (work_trade_frame _ _).1, (work_trade_frame _ _).2,
              (work_development_frame _ _).1, (work_development_frame _ _).2,
              (work_flex_frame _ _).1, (work_flex_frame _ _).2,
              (work_pantheon_frame _).1, (work_pantheon_frame _).2]

/-- `move_toward_target` never touches archetype, profile, timer or the
collapse flags. -/
theorem move_frame (a : Npc.NPC) (anch : Npc.Anchors) (cfg : Npc.Config) :
    frameA (Npc.move_toward_target a anch cfg).1 = frameA a
    ∧ frameB (Npc.move_toward_target a anch cfg).1 = frameB a := by
  obtain ⟨ax, ay, az, ast, atg, asp, aid, amo, aen, aco, ase, astr, ask, atl, apv, apb, apt,
    aig, atb, awb, aso, acp, aic, atw, atd, aar, adp, adh, adt, ain, acc, ahw⟩ := a
  refine ⟨?_, ?_⟩ <;>
    · unfold Npc.move_toward_target
      dsimp only
      (repeat' split) <;> rfl

/-- The coherence decay step only touches `coherence`. -/
theorem coherence_decay_frame (a : Npc.NPC) (cfg : Npc.Config) :
    frameA (Npc.coherence_decay a cfg) = frameA a
    ∧ frameB (Npc.coherence_decay a cfg) = frameB a
    ∧ (Npc.coherence_decay a cfg).state = a.state := by
  refine ⟨rfl, rfl, rfl⟩

/-- The collapse trigger never touches archetype, profile or timer. -/
theorem collapse_check_frameA (a : Npc.NPC) :
    frameA (Npc.collapse_check a) = frameA a
    ∧ (Npc.collapse_check a).state = a.state := by
  obtain ⟨ax, ay, az, ast, atg, asp, aid, amo, aen, aco, ase, astr, ask, atl, apv, apb, apt,
    aig, atb, awb, aso, acp, aic, atw, atd, aar, adp, adh, adt, ain, acc, ahw⟩ := a
  refine ⟨?_, ?_⟩ <;>
    · unfold Npc.collapse_check Npc.on_collapse
      dsimp only
      (repeat' split) <;> rfl

/-- The collapse trigger preserves the collapse invariant: it fires at most
once (only while `is_collapsing` is still down, where the counter is 0). -/
theorem collapse_check_inv (a : Npc.NPC) (h : collapseInv a) :
    collapseInv (Npc.collapse_check a) := by
  unfold Npc.collapse_check Npc.on_collapse
  unfold collapseInv at h ⊢
  split
  case isTrue hc =>
    have hb : a.is_collapsing = false := hc.2
    rw [hb] at h
    simp only [Npc.on_collapse]
    simp only [if_neg, if_pos, Bool.false_eq_true, if_true]
    simp at h ⊢
    omega
  case isFalse hc => exact h

/-- The phase machine never touches archetype, profile, timer or the
collapse flags. -/
theorem phase_step_frame (a : Npc.NPC) (anch : Npc.Anchors) (cfg : Npc.Config)
    (tick : ℕ) (rs : RandS) :
    frameA (Npc.phase_step a anch cfg tick rs).1 = frameA a
    ∧ frameB (Npc.phase_step a anch cfg tick rs).1 = frameB a := by
  have hm := move_frame a anch cfg
  have hp := perform_work_frame a cfg
  refine ⟨?_, ?_⟩ <;>
    · unfold Npc.phase_step
      cases hst : a.state
      case AT_HOME =>
        dsimp only
        (repeat' split) <;> rfl
      case TRAVELING =>
        dsimp only
        repeat' split
        all_goals simp_all [frameA, frameB, Prod.mk.injEq]
      case AT_WORK =>
        cases hz : a.zone
        case none => dsimp only
        case some z =>
          dsimp only
          repeat' split
          all_goals simp_all [frameA, frameB, Prod.mk.injEq]

/-- `update_state` never touches archetype, profile or timer, and preserves
the collapse invariant. -/
theorem update_state_frame (a : Npc.NPC) (anch : Npc.Anchors) (cfg : Npc.Config)
    (tick : ℕ) (rs : RandS) :
    frameA (Npc.update_state a anch cfg tick rs).1 = frameA a
    ∧ (collapseInv a → collapseInv (Npc.update_state a anch cfg tick rs).1) := by
  unfold Npc.update_state
  have h1 := coherence_decay_frame a cfg
  have h2 := collapse_check_frameA (Npc.coherence_decay a cfg)
  have h3 := phase_step_frame (Npc.collapse_check (Npc.coherence_decay a cfg)) anch cfg tick rs
  constructor
  · rw [h3.1, h2.1, h1.1]
  · intro hinv
    have hinv1 : collapseInv (Npc.coherence_decay a cfg) :=
      collapseInv_of_frameB h1.2.1 hinv
    have hinv2 := collapse_check_inv _ hinv1
    exact collapseInv_of_frameB h3.2 hinv2

/-- `_apply_doctrine_effects` never touches archetype, profile, timer or the
collapse flags. -/
theorem apply_effects_frame (a : Npc.NPC) :
    frameA (Npc.apply_doctrine_effects a) = frameA a
    ∧ frameB (Npc.apply_doctrine_effects a) = frameB a := by
  obtain ⟨ax, ay, az, ast, atg, asp, aid, amo, aen, aco, ase, astr, ask, atl, apv, apb, apt,
    aig, atb, awb, aso, acp, aic, atw, atd, aar, adp, adh, adt, ain, acc, ahw⟩ := a
  refine ⟨?_, ?_⟩ <;>
    · unfold Npc.apply_doctrine_effects
      dsimp only
      (repeat' split) <;> rfl

/-- `deepen_indoctrination` never touches archetype or the collapse flags,
and an agent holding a profile still holds one afterwards (escape begins
deradicalization but does not clear the profile). -/
theorem deepen_frame (a : Npc.NPC) (tick : ℕ) (rs : RandS) :
    (Npc.deepen_indoctrination a tick rs).1.archetype = a.archetype
    ∧ frameB (Npc.deepen_indoctrination a tick rs).1 = frameB a
    ∧ (a.doctrine_profile.isSome = true →
        ((Npc.deepen_indoctrination a tick rs).1.doctrine_profile).isSome = true) := by
  unfold Npc.deepen_indoctrination
  cases hp : a.doctrine_profile with
  | none =>
    refine ⟨rfl, rfl, fun h => ?_⟩
    simp [hp] at h
  | some p =>
    dsimp only
    split
    case isTrue h =>
      refine ⟨rfl, rfl, fun _ => ?_⟩
      simp [Npc.begin_deradicalization, hp]
    case isFalse h =>
      have he := apply_effects_frame { a with doctrine_profile := some p.update }
      refine ⟨?_, ?_, fun _ => ?_⟩
      · exact (frameA_archetype he.1).trans rfl
      · exact he.2.trans rfl
      · rw [frameA_profile he.1]
        rfl

/-- `update_deradicalization` never touches archetype or the collapse
flags; called with a positive timer it decrements it and leaves the profile
in place. -/
theorem update_derad_frame (a : Npc.NPC) (tick : ℕ) :
    (Npc.update_deradicalization a tick).archetype = a.archetype
    ∧ frameB (Npc.update_deradicalization a tick) = frameB a
    ∧ (0 < a.deradicalization_timer →
        (Npc.update_deradicalization a tick).doctrine_profile = a.doctrine_profile) := by
  unfold Npc.update_deradicalization
  split
  case isTrue h =>
    exact ⟨rfl, rfl, fun hpos => absurd h (by omega)⟩
  case isFalse h =>
    exact ⟨rfl, rfl, fun _ => rfl⟩

/-- `compute_trustworthiness` only touches `trustworthiness`. -/
theorem trust_frame (a : Npc.NPC) :
    frameA (Npc.compute_trustworthiness a) = frameA a
    ∧ frameB (Npc.compute_trustworthiness a) = frameB a := ⟨rfl, rfl⟩

/-- The doctrine stage of `act` preserves archetype and the collapse flags,
and keeps a held profile held. -/
theorem act_doctrine_stage_frame (a : Npc.NPC) (tick : ℕ) (rs : RandS) :
    (Npc.act_doctrine_stage a tick rs).1.archetype = a.archetype
    ∧ frameB (Npc.act_doctrine_stage a tick rs).1 = frameB a
    ∧ (a.doctrine_profile.isSome = true →
        ((Npc.act_doctrine_stage a tick rs).1.doctrine_profile).isSome = true) := by
  unfold Npc.act_doctrine_stage
  split
  case isTrue h =>
    have := deepen_frame a tick rs
    exact ⟨this.1, this.2.1, this.2.2⟩
  case isFalse h => exact ⟨rfl, rfl, fun hh => hh⟩

/-- The deradicalization stage of `act` preserves archetype, the collapse
flags, and (because the source guard only fires while the timer is
positive, where the clearing branch is unreachable) the held profile. -/
theorem act_derad_stage_frame (a : Npc.NPC) (tick : ℕ) :
    (Npc.act_derad_stage a tick).archetype = a.archetype
    ∧ frameB (Npc.act_derad_stage a tick) = frameB a
    ∧ (Npc.act_derad_stage a tick).doctrine_profile = a.doctrine_profile := by
  unfold Npc.act_derad_stage
  split
  case isTrue h =>
    have := update_derad_frame a tick
    exact ⟨this.1, this.2.1, this.2.2 h⟩
  case isFalse h => exact ⟨rfl, rfl, rfl⟩

/-- The trust stage of `act` preserves archetype, profile and the collapse
flags. -/
theorem act_trust_stage_frame (a : Npc.NPC) (tick : ℕ) :
    (Npc.act_trust_stage a tick).archetype = a.archetype
    ∧ frameB (Npc.act_trust_stage a tick) = frameB a
    ∧ (Npc.act_trust_stage a tick).doctrine_profile = a.doctrine_profile := by
  unfold Npc.act_trust_stage
  split <;> exact ⟨rfl, rfl, rfl⟩

/-- `act` preserves the archetype, keeps a held profile held, and preserves
the collapse invariant. -/
theorem act_frame (a : Npc.NPC) (anch : Npc.Anchors) (cfg : Npc.Config)
    (tick : ℕ) (rs : RandS) :
    (Npc.act a anch cfg tick rs).1.archetype = a.archetype
    ∧ (a.doctrine_profile.isSome = true →
        ((Npc.act a anch cfg tick rs).1.doctrine_profile).isSome = true)
    ∧ (collapseInv a → collapseInv (Npc.act a anch cfg tick rs).1) := by
  unfold Npc.act
  have hus := update_state_frame a anch cfg tick rs
  have husA : (Npc.update_state a anch cfg tick rs).1.archetype = a.archetype
      ∧ (Npc.update_state a anch cfg tick rs).1.doctrine_profile = a.doctrine_profile := by
    have := hus.1
    simp only [frameA, Prod.mk.injEq] at this
    exact ⟨this.1, this.2.1⟩
  have h1 := act_doctrine_stage_frame (Npc.update_state a anch cfg tick rs).1 tick
    (Npc.update_state a anch cfg tick rs).2
  have h2 := act_derad_stage_frame
    (Npc.act_doctrine_stage (Npc.update_state a anch cfg tick rs).1 tick
      (Npc.update_state a anch cfg tick rs).2).1 tick
  have h3 := act_trust_stage_frame
    (Npc.act_derad_stage
      (Npc.act_doctrine_stage (Npc.update_state a anch cfg tick rs).1 tick
        (Npc.update_state a anch cfg tick rs).2).1 tick) tick
  refine ⟨?_, ?_, ?_⟩
  · rw [h3.1, h2.1, h1.1, husA.1]
  · intro hheld
    have hp1 : ((Npc.act_doctrine_stage (Npc.update_state a anch cfg tick rs).1 tick
        (Npc.update_state a anch cfg tick rs).2).1.doctrine_profile).isSome = true := by
      apply h1.2.2
      rw [husA.2]
      exact hheld
    rw [h3.2.2, h2.2.2]
    exact hp1
  · intro hinv
    have hB : frameB (Npc.act a anch cfg tick rs).1
        = frameB (Npc.update_state a anch cfg tick rs).1 := by
      unfold Npc.act
      rw [h3.2.1, h2.2.1, h1.2.1]
    have hinv1 := hus.2 hinv
    unfold collapseInv at hinv1 ⊢
    have hB2 := hB
    simp only [frameB, Prod.mk.injEq] at hB2
    unfold Npc.act at hB2
    rw [hB2.1, hB2.2]
    exact hinv1

/-- C2: the per-tick deradicalization update with a positive timer only
decrements the timer by exactly 1 (and trickles coherence) — it does not
clear the profile on the tick the timer reaches 0; and under the per-agent
tick update `act`, an agent holding a profile still holds one after every
tick (the clearing branch of `update_deradicalization` is unreachable from
`act`, whose guard requires a positive timer), so no sequence of `act`
ticks ever produces `doctrine_profile = None`. -/
theorem c2_theorem :
    (∀ (a : Npc.NPC) (t : ℕ), 0 < a.deradicalization_timer →
        Npc.update_deradicalization a t
          = { a with
              deradicalization_timer := a.deradicalization_timer - 1
              coherence := min 1 (a.coherence + 0.005) })
  ∧ (∀ (a : Npc.NPC) (anch : Npc.Anchors) (cfg : Npc.Config) (t : ℕ) (rs : RandS),
      a.doctrine_profile.isSome = true →
        (((Npc.act a anch cfg t rs).1).doctrine_profile).isSome = true) := by
  constructor
  · intro a t ht
    unfold Npc.update_deradicalization
    rw [if_neg (by omega)]
  · intro a anch cfg t rs h
    exact (act_frame a anch cfg t rs).2.1 h

/-- C2 witness: the recovering concrete agent `aC2` (timer 1): the update
decrements to 0 without clearing, and a full `act` tick leaves it still
indoctrinated. -/
theorem c2_witness :
    Npc.update_deradicalization aC2 7
      = { aC2 with
          deradicalization_timer := aC2.deradicalization_timer - 1
          coherence := min 1 (aC2.coherence + 0.005) }
    ∧ (((Npc.act aC2 anchorsW defaultConfig 1 []).1).doctrine_profile).isSome = true :=
  ⟨c2_theorem.1 aC2 7 (by decide), c2_theorem.2 aC2 anchorsW defaultConfig 1 [] rfl⟩

/-- C4: the resource-bound claim fails: a TRAVELING agent with zero money
(a legal pre-state) ends the tick with negative money, because the
travel-cost debit in `move_toward_target` is never clamped. -/
theorem c4_theorem :
    aC4.money = 0 ∧ ((Npc.act aC4 anchorsW defaultConfig 1 []).1).money < 0 := by
  constructor
  · rfl
  · norm_num [Npc.act, Npc.update_state, Npc.coherence_decay, Npc.collapse_check,
      Npc.phase_step, Npc.move_toward_target, Npc.act_doctrine_stage, Npc.act_derad_stage,
      Npc.act_trust_stage, Npc.on_collapse, ratSqrt, isqrt, isqrtAux,
      aC4, Npc.mkNPC, Npc.npcIdDefault, Npc.itertools_count_first, anchorsW, defaultConfig,
      min_def, max_def, Rat.num_ofNat, Rat.den_ofNat, Int.toNat_ofNat]

/-- C9: collapse bookkeeping — a freshly constructed agent satisfies the
collapse invariant, and along every `act` trace the invariant persists:
`collapse_cycle_count` never exceeds 1, hence the TRANSCENDENT escape
predicate (`count > 3`) and the REVOLUTIONARY exposure predicate
(`count > 2`) are false in every reachable state. -/
theorem c9_theorem :
    (∀ (x y m e c s : ℚ), collapseInv (Npc.mkNPC x y m e c s))
  ∧ (∀ (a : Npc.NPC), collapseInv a →
      ∀ steps : List (Npc.Anchors × Npc.Config × ℕ × RandS),
        collapseInv (actTrace a steps)
        ∧ (actTrace a steps).collapse_cycle_count ≤ 1
        ∧ transcendent_escape_pred (actTrace a steps) = false
        ∧ revolutionary_exposure_pred (actTrace a steps) = false) := by
  have hstep : ∀ (a : Npc.NPC), collapseInv a →
      ∀ steps : List (Npc.Anchors × Npc.Config × ℕ × RandS), collapseInv (actTrace a steps) := by
    intro a ha steps
    induction steps generalizing a with
    | nil => exact ha
    | cons s rest ih =>
      exact ih _ ((act_frame a s.1 s.2.1 s.2.2.1 s.2.2.2).2.2 ha)
  refine ⟨fun x y m e c s => by simp [collapseInv, Npc.mkNPC], fun a ha steps => ?_⟩
  have hinv := hstep a ha steps
  have hle : (actTrace a steps).collapse_cycle_count ≤ 1 := by
    unfold collapseInv at hinv
    split at hinv <;> omega
  refine ⟨hinv, hle, ?_, ?_⟩
  · simp only [transcendent_escape_pred, decide_eq_false_iff_not]
    rintro ⟨h3, _⟩
    omega
  · simp only [revolutionary_exposure_pred, decide_eq_false_iff_not]
    rintro ⟨h3, _⟩
    omega

/-- C9 witness: the invariant and both predicates hold for the fresh agent
`aC9` after one concrete `act` tick. -/
theorem c9_witness :
    collapseInv (actTrace aC9 [(anchorsW, defaultConfig, 1, [])])
    ∧ (actTrace aC9 [(anchorsW, defaultConfig, 1, [])]).collapse_cycle_count ≤ 1
    ∧ transcendent_escape_pred (actTrace aC9 [(anchorsW, defaultConfig, 1, [])]) = false
    ∧ revolutionary_exposure_pred (actTrace aC9 [(anchorsW, defaultConfig, 1, [])]) = false :=
  c9_theorem.2 aC9 (by simp [collapseInv, aC9, Npc.mkNPC]) _

/-- C10: every agent is a PRAGMATIST — world initialization yields the
constant archetype sequence, the constructor (`__post_init__`)
unconditionally assigns PRAGMATIST, and no `act` tick ever changes an
agent's archetype. -/
theorem c10_theorem :
    (∀ (homeX homeY : ℚ) (n : ℕ) (rs : RandS),
      ((Npc.initNpcs homeX homeY n rs).1.map Npc.NPC.archetype)
        = List.replicate n Arch.PRAGMATIST)
  ∧ (∀ (x y m e c s : ℚ), (Npc.mkNPC x y m e c s).archetype = Arch.PRAGMATIST)
  ∧ (∀ (a : Npc.NPC) (anch : Npc.Anchors) (cfg : Npc.Config) (tick : ℕ) (rs : RandS),
      (Npc.act a anch cfg tick rs).1.archetype = a.archetype) := by
  refine ⟨?_, fun x y m e c s => rfl,
    fun a anch cfg tick rs => (act_frame a anch cfg tick rs).1⟩
  intro hx hy n rs
  induction n generalizing rs with
  | zero => simp [Npc.initNpcs]
  | succ k ih => simp [Npc.initNpcs, Npc.mkNPC, List.replicate_succ, ih]
